import Mathlib

/-!
Shallow embedding of `src/sync_weather.py` (weather-supabase-sync).

The Python module defines a client class `MertaniRainfallAPI` holding mutable
caches, a parallel fetch orchestrator, a record transformer, and a Supabase
persister.  We embed the mutable object state as an explicit `ApiState`
record threaded through each operation; network effects are modelled by an
oracle function passed as an argument plus a counter `network_calls` that is
incremented exactly where the Python code issues a request.  Clock reads
(`time.time()`) inside one operation are modelled by a single `now : Nat`
argument.  Python dicts are modelled as association lists in insertion
order with dict update semantics (update in place, append when new), which
matches CPython dict ordering; `min` over dict keys returns the first
minimal key in that order.
-/

namespace SyncWeather

/-- Seconds a cache entry stays fresh (`CACHE_DURATION_SEC = 300`). -/
def CACHE_DURATION_SEC : Nat := 300

/-- Suppression interval of the dedup ledger (`DUPLICATE_SKIP_SEC = 60`). -/
def DUPLICATE_SKIP_SEC : Nat := 60

/-- Rows per bulk insert (`SUPABASE_BATCH_SIZE = 1000`). -/
def SUPABASE_BATCH_SIZE : Nat := 1000

/-- Reading-cache capacity (`MAX_CACHE_ENTRIES = 500`). -/
def MAX_CACHE_ENTRIES : Nat := 500

/-- A scalar JSON value as the code distinguishes them: `num` covers values
`float(...)` accepts (numbers, bools, numeric strings), `text` covers values
it rejects (non-numeric strings and other objects). -/
inductive PyVal where
  | num (x : Rat)
  | text (s : String)
deriving DecidableEq

/-- Embeds `_safe_float`: coerce to float, `None` on failure or `None` input. -/
def safe_float : Option PyVal → Option Rat
  | some (.num x) => some x
  | some (.text _) => none
  | none => none

/-- Python truthiness of an optional string (`None` and `""` are falsy). -/
def truthyStr : Option String → Option String
  | some s => if s = "" then none else some s
  | none => none

/-- Python truthiness of an optional scalar (`None`, `0`, `""` are falsy). -/
def truthyVal : Option PyVal → Bool
  | none => false
  | some (.num x) => decide (x ≠ 0)
  | some (.text s) => decide (s ≠ "")

/-- Python `a or b` on optional scalars. -/
def orVal (a b : Option PyVal) : Option PyVal :=
  if truthyVal a then a else b

/-- Dict lookup: value stored under key `k` (keys are unique by construction). -/
def dictGet (d : List (String × α)) (k : String) : Option α :=
  List.lookup k d

/-- Dict assignment `d[k] = v`: replace the value in place when the key
exists (keys are unique in every dict this file builds), append otherwise
(CPython insertion-order semantics). -/
def dictInsert (d : List (String × α)) (k : String) (v : α) : List (String × α) :=
  match d with
  | [] => [(k, v)]
  | p :: rest => if p.1 = k then (k, v) :: rest else p :: dictInsert rest k v

/-- Dict deletion `del d[k]`. -/
def dictErase (d : List (String × α)) (k : String) : List (String × α) :=
  d.filter (fun p => p.1 != k)

/-- One telemetry sample (`sensor_record` in the readings payload). -/
structure SensorRecord where
  datetime : Option String
  value_calibration : Option PyVal
  value_raw : Option PyVal
deriving DecidableEq

/-- The `sensor_master` metadata; `none` fields model absent keys. -/
structure SensorMaster where
  sensor_name : Option String
  sensor_unit : Option String
deriving DecidableEq

/-- One entry of `response.data.data` in the readings payload. -/
structure ApiRecord where
  sensor_master : Option SensorMaster
  sensor_records : Option (List SensorRecord)
deriving DecidableEq

/-- A readings response (`response_data`): its `status` and the record list
reached by `.get('data', {}).get('data', [])` (`none` models a missing
level, resolved to `[]`). -/
structure Payload where
  status : String
  data : Option (List ApiRecord)
deriving DecidableEq

/-- A cached readings response with its store time. -/
structure CacheEntry where
  data : Payload
  timestamp : Nat
deriving DecidableEq

/-- One element of the flattened sensor inventory (the dicts built in
`get_all_rainfall_sensors_with_device_info` and consumed by
`fetch_single_sensor_data` and `transform_rainfall_data`).
`sensor_company_id` is typed total because every consumer indexes it. -/
structure SensorInfo where
  sensor_company_id : String
  device_id : Option String
  device_name : Option String
  gps_location_lat : Option PyVal
  gps_location_lng : Option PyVal
deriving DecidableEq

/-- One device of the `/devices` response. -/
structure Device where
  device_id : Option String
  device_name : Option String
  name : Option String
  gps_location_lat : Option PyVal
  device_latitude : Option PyVal
  gps_location_lng : Option PyVal
  device_longitude : Option PyVal
  sensor_companies : List String
deriving DecidableEq

/-- A `/devices` response: status and the device list at `data.data`. -/
structure DevicesPayload where
  status : String
  devices : List Device
deriving DecidableEq

/-- The mutable state of a `MertaniRainfallAPI` instance, plus a counter of
network requests issued (each `conn.request` increments it). -/
structure ApiState where
  access_token : Option String
  company_id : Option String
  sensors_cache : Option (List SensorInfo)
  cache_timestamp : Option Nat
  last_processed_cache : List (String × Nat)
  data_cache : List (String × CacheEntry)
  network_calls : Nat
deriving DecidableEq

/-- The freshly constructed client: empty caches, no token. -/
def ApiState.init : ApiState :=
  { access_token := none, company_id := none, sensors_cache := none,
    cache_timestamp := none, last_processed_cache := [], data_cache := [],
    network_calls := 0 }

/-- First (in insertion order) key of minimal timestamp, starting from a
candidate: the Python `min(keys, key=lambda k: cache[k].get('timestamp', 0))`. -/
def oldestFrom : String → Nat → List (String × CacheEntry) → String × Nat
  | k, t, [] => (k, t)
  | k, t, (k', e) :: rest =>
      if e.timestamp < t then oldestFrom k' e.timestamp rest else oldestFrom k t rest

/-- Key of the globally oldest cache entry, when the cache is nonempty. -/
def oldestKey : List (String × CacheEntry) → Option (String × Nat)
  | [] => none
  | (k, e) :: rest => some (oldestFrom k e.timestamp rest)

/-- Drop the entry with the globally smallest timestamp (first such key in
insertion order), as the eviction branch of `get_rainfall_data` does. -/
def evictOldest (d : List (String × CacheEntry)) : List (String × CacheEntry) :=
  match oldestKey d with
  | none => d
  | some (k, _) => dictErase d k

/-- The reading-cache key `f"{sensor_company_id}_{start_date}_{end_date}"`. -/
def cacheKey (sensor_company_id start_date end_date : String) : String :=
  sensor_company_id ++ "_" ++ start_date ++ "_" ++ end_date

/-- Embeds `MertaniRainfallAPI.get_rainfall_data`.  `net` is the remote endpoint:
`none` models a transport/JSON failure (an exception), `some p` a decoded
response.  Returns the result of the call (`Except` models raising) and the
successor state. -/
def get_rainfall_data (st : ApiState)
    (net : String → String → String → Option Payload) (now : Nat)
    (sensor_company_id start_date end_date : String) (use_cache : Bool) :
    Except String Payload × ApiState :=
  match st.access_token with
  | none => (.error "login required", st)
  | some _ =>
    let key := cacheKey sensor_company_id start_date end_date
    let hit : Option Payload :=
      if use_cache then
        match dictGet st.data_cache key with
        | some entry =>
            if now - entry.timestamp < CACHE_DURATION_SEC then some entry.data else none
        | none => none
      else none
    match hit with
    | some d => (.ok d, st)
    | none =>
      let st' := { st with network_calls := st.network_calls + 1 }
      match net sensor_company_id start_date end_date with
      | none => (.error "connection error", st')
      | some response =>
        if response.status = "OK" then
          if use_cache then
            let cache :=
              if MAX_CACHE_ENTRIES ≤ st'.data_cache.length then evictOldest st'.data_cache
              else st'.data_cache
            (.ok response,
             { st' with data_cache := dictInsert cache key ⟨response, now⟩ })
          else (.ok response, st')
        else (.error "fetch failed", st')

/-- Computes `display_name = device_name or device_id or 'Unknown'` (Python `or`,
so empty strings also fall through). -/
def display_name (sensor_info : SensorInfo) : String :=
  match truthyStr sensor_info.device_name with
  | some s => s
  | none => (truthyStr sensor_info.device_id).getD "Unknown"

/-- Embeds `MertaniRainfallAPI.fetch_single_sensor_data`: dedup check against the
ledger, then a guarded fetch.  Never raises: a fetch exception becomes the
4-tuple `(sensor_id, none, display_name, false)`.  The ledger is stamped
only on a successful fetch. -/
def fetch_single_sensor_data (st : ApiState)
    (net : String → String → String → Option Payload) (now : Nat)
    (sensor_info : SensorInfo) (start_date end_date : String) :
    (String × Option Payload × String × Bool) × ApiState :=
  let sensor_id := sensor_info.sensor_company_id
  let dn := display_name sensor_info
  let key := cacheKey sensor_id start_date end_date
  let skip : Bool :=
    match dictGet st.last_processed_cache key with
    | some last_time => decide (now - last_time < DUPLICATE_SKIP_SEC)
    | none => false
  if skip then ((sensor_id, none, dn, true), st)
  else
    match get_rainfall_data st net now sensor_id start_date end_date true with
    | (.ok data, st') =>
        ((sensor_id, some data, dn, true),
         { st' with last_processed_cache := dictInsert st'.last_processed_cache key now })
    | (.error _, st') => ((sensor_id, none, dn, false), st')

/-- One step of the result-collection loop of
`fetch_all_rainfall_data_parallel`: run one sensor fetch and store its
payload in `all_data` under the sensor id. -/
def fetch_all_step (net : String → String → String → Option Payload) (now : Nat)
    (start_date end_date : String)
    (acc : List (String × Option Payload) × ApiState) (info : SensorInfo) :
    List (String × Option Payload) × ApiState :=
  let r := fetch_single_sensor_data acc.2 net now info start_date end_date
  (dictInsert acc.1 r.1.1 r.1.2.1, r.2)

/-- Embeds `MertaniRainfallAPI.fetch_all_rainfall_data_parallel`, restricted to its
result-collection semantics: every submitted task completes and its result
is stored in `all_data[sensor_id]`.  The executor fan-out is modelled by one
serialization of task completions (input order); the set of keys and the
entry count of `all_data` do not depend on the completion order. -/
def fetch_all_rainfall_data_parallel (st : ApiState)
    (net : String → String → String → Option Payload) (now : Nat)
    (sensors : List SensorInfo) (start_date end_date : String) :
    List (String × Option Payload) × ApiState :=
  sensors.foldl (fetch_all_step net now start_date end_date) ([], st)

/-- Device display-name fallback chain:
`device_name or name or f"Device_{device_id}"`. -/
def deviceDisplayName (d : Device) : String :=
  match truthyStr d.device_name with
  | some s => s
  | none =>
    match truthyStr d.name with
    | some s => s
    | none => "Device_" ++ d.device_id.getD "Unknown"

/-- Flatten the device list into per-sensor inventory entries, as the loop
in `get_all_rainfall_sensors_with_device_info` does. -/
def flattenDevices (devices : List Device) : List SensorInfo :=
  devices.flatMap (fun d =>
    d.sensor_companies.map (fun sid =>
      { sensor_company_id := sid
        device_id := d.device_id
        device_name := some (deviceDisplayName d)
        gps_location_lat := orVal d.gps_location_lat d.device_latitude
        gps_location_lng := orVal d.gps_location_lng d.device_longitude }))

/-- The no-fresh-cache path of `get_all_rainfall_sensors_with_device_info`:
token check, then one network call, then flatten and replace the cache
wholesale. -/
def get_all_sensors_uncached (st : ApiState)
    (netDevices : Option DevicesPayload) (now : Nat) :
    Except String (List SensorInfo) × ApiState :=
  match st.access_token with
  | none => (.error "login required", st)
  | some _ =>
    let st' := { st with network_calls := st.network_calls + 1 }
    match netDevices with
    | none => (.error "connection error", st')
    | some dp =>
      if dp.status = "OK" then
        let sensors := flattenDevices dp.devices
        (.ok sensors,
         { st' with sensors_cache := some sensors, cache_timestamp := some now })
      else (.error "devices fetch failed", st')

/-- Embeds `MertaniRainfallAPI.get_all_rainfall_sensors_with_device_info`.  Note
the source checks the inventory cache before checking the token. -/
def get_all_rainfall_sensors_with_device_info (st : ApiState)
    (netDevices : Option DevicesPayload) (now : Nat) :
    Except String (List SensorInfo) × ApiState :=
  match st.sensors_cache, st.cache_timestamp with
  | some cached, some ts =>
      if now - ts < CACHE_DURATION_SEC then (.ok cached, st)
      else get_all_sensors_uncached st netDevices now
  | some _, none => get_all_sensors_uncached st netDevices now
  | none, _ => get_all_sensors_uncached st netDevices now

/-- One row produced by `transform_rainfall_data` (the dict literal at its
core, field for field). -/
structure TransformedRecord where
  sensor_company_id : String
  sensor_name : String
  sensor_unit : String
  device_id : Option String
  device_name : Option String
  gps_location_lat : Option Rat
  gps_location_lng : Option Rat
  datetime : Option String
  value_calibration : Option Rat
  value_raw : Option Rat
  timestamp : String
  raw_data : String
  created_at : String
deriving DecidableEq

/-- Render one scalar for the auxiliary payload. -/
def serializePyVal : Option PyVal → String
  | none => "null"
  | some (.num x) => toString x
  | some (.text s) => s

/-- The `raw_data` column: `json.dumps(sensor_record, ensure_ascii=False,
default=str)`.  With `default=str` serialization succeeds on every value a
`SensorRecord` can hold, so the exception fallback branch of the source is
unreachable in the model; what matters for the properties is that the
serialization is a pure function of the reading. -/
def serializeSensorRecord (sr : SensorRecord) : String :=
  "datetime: " ++ sr.datetime.getD "null" ++
  ", value_calibration: " ++ serializePyVal sr.value_calibration ++
  ", value_raw: " ++ serializePyVal sr.value_raw

/-- Build one transformed record from a reading plus its context, exactly
as the dict literal in `transform_rainfall_data` (including the Python
truthiness conditionals on the device fields). -/
def mkTransformed (sensor_id : String) (sm : Option SensorMaster)
    (device_info : Option SensorInfo) (sr : SensorRecord) (current_time : String) :
    TransformedRecord :=
  { sensor_company_id := sensor_id
    sensor_name := (sm.bind SensorMaster.sensor_name).getD "Unknown"
    sensor_unit := (sm.bind SensorMaster.sensor_unit).getD "mm"
    device_id := truthyStr (device_info.bind SensorInfo.device_id)
    device_name := truthyStr (device_info.bind SensorInfo.device_name)
    gps_location_lat := safe_float (device_info.bind SensorInfo.gps_location_lat)
    gps_location_lng := safe_float (device_info.bind SensorInfo.gps_location_lng)
    datetime := sr.datetime
    value_calibration := safe_float sr.value_calibration
    value_raw := safe_float sr.value_raw
    timestamp := current_time
    raw_data := serializeSensorRecord sr
    created_at := current_time }

/-- Core of `SupabaseSync.transform_rainfall_data`.  `rainfall_data` is the batch
result dict (insertion order), `current_time` the shared processing
timestamp taken once per call.  A batch entry contributes records only when
its payload is non-null (a payload is a nonempty dict, hence truthy) and
its status is `"OK"`; the device lookup falls back to an empty dict, which
our `Option` models.  `entryRecords` is the body of the outer loop for one
batch entry. -/
def entryRecords (device_info_map : List (String × SensorInfo))
    (current_time : String) (p : String × Option Payload) :
    List TransformedRecord :=
  match p.2 with
  | none => []
  | some sensor_data =>
    if sensor_data.status = "OK" then
      (sensor_data.data.getD []).flatMap (fun record =>
        (record.sensor_records.getD []).map (fun sr =>
          mkTransformed p.1 record.sensor_master (dictGet device_info_map p.1)
            sr current_time))
    else []

/-- Embeds `SupabaseSync.transform_rainfall_data`: build the sensor-to-descriptor
map (later duplicates override earlier ones, as in the dict comprehension),
then emit the records of every batch entry in iteration order. -/
def transform_rainfall_data (rainfall_data : List (String × Option Payload))
    (sensors_with_device_info : List SensorInfo) (current_time : String) :
    List TransformedRecord :=
  let device_info_map := sensors_with_device_info.foldl
    (fun m s => dictInsert m s.sensor_company_id s) []
  rainfall_data.flatMap (entryRecords device_info_map current_time)

/-- Outcome of one destination insert call: `.error` models an exception,
`.ok rows` a result whose `.data` lists the rows written. -/
abbrev InsertOracle := List TransformedRecord → Except Unit (List TransformedRecord)

/-- One batch of the persist loop: try the bulk insert; on exception retry
each row of the batch individually, counting a row as saved when its
single-row insert returns truthy (nonempty) data.  Returns the number of
rows saved for this batch. -/
def insert_batch_with_fallback (db : InsertOracle) (batch : List TransformedRecord) : Nat :=
  match db batch with
  | .ok data => data.length
  | .error _ =>
      (batch.filter (fun r =>
        match db [r] with
        | .ok l => !l.isEmpty
        | .error _ => false)).length

/-- Split into chunks of `n` (fuel-driven; fuel = list length suffices). -/
def chunksAux (n : Nat) : Nat → List α → List (List α)
  | _, [] => []
  | 0, l => [l]
  | fuel + 1, l => l.take n :: chunksAux n fuel (l.drop n)

/-- The `records[i:i+batch_size]` slicing loop of `save_to_supabase`. -/
def chunksOf (n : Nat) (l : List α) : List (List α) := chunksAux n l.length l

/-- Embeds `SupabaseSync.save_to_supabase`: empty input is a no-op success;
otherwise process fixed-size batches with row-level fallback.  Every insert
exception is caught inside the loop, so within the modelled behaviour the
function returns `true`; the `false` branch of the source corresponds to a
top-level error outside the insert calls (for example an unreachable
destination when building the client), which the oracle does not produce.
Returns the success flag and `total_saved`. -/
def save_to_supabase (db : InsertOracle) (records : List TransformedRecord) :
    Bool × Nat :=
  if records.isEmpty then (true, 0)
  else
    (true, ((chunksOf SUPABASE_BATCH_SIZE records).map (insert_batch_with_fallback db)).sum)

/-! Specification measures and concrete instances used by the theorems,
counterexamples and witnesses below. -/

/-- The number of raw readings contained in the success entries of a batch
result map: one per reading of each entry whose payload is non-null and
whose status is `"OK"`. -/
def expectedRecordCount (rainfall_data : List (String × Option Payload)) : Nat :=
  (rainfall_data.map (fun p =>
    match p.2 with
    | some pay =>
        if pay.status = "OK" then
          ((pay.data.getD []).map (fun r => (r.sensor_records.getD []).length)).sum
        else 0
    | none => 0)).sum

/-- A concrete inventory entry. -/
def exInfo : SensorInfo :=
  { sensor_company_id := "s1", device_id := some "d1", device_name := some "Dev",
    gps_location_lat := none, gps_location_lng := none }

/-- A transport that always fails (raises) on fetch. -/
def exNetNone : String → String → String → Option Payload := fun _ _ _ => none

/-- A state with no session token but a fresh inventory cache. -/
def exStCacheNoTok : ApiState :=
  { ApiState.init with sensors_cache := some [exInfo], cache_timestamp := some 100 }

/-- A concrete telemetry sample. -/
def exSensorRecord : SensorRecord :=
  { datetime := some "2026-01-01 00:00:00", value_calibration := some (.num 3),
    value_raw := some (.num 2) }

/-- A concrete success payload with one reading. -/
def exPayload : Payload :=
  { status := "OK",
    data := some [ { sensor_master := some { sensor_name := some "rain", sensor_unit := some "mm" },
                     sensor_records := some [exSensorRecord] } ] }

/-- A concrete remote-failure payload. -/
def exBadPayload : Payload := { status := "ERROR", data := none }

/-- A transport that always answers with the success payload. -/
def exNetOK : String → String → String → Option Payload := fun _ _ _ => some exPayload

/-- A transport that always answers with the remote-failure payload. -/
def exNetBad : String → String → String → Option Payload := fun _ _ _ => some exBadPayload

/-- A freshly logged-in state. -/
def exStTok : ApiState := { ApiState.init with access_token := some "tok" }

/-- A concrete batch result map: two success entries with one reading each
and one failed (null) entry. -/
def exBatch : List (String × Option Payload) :=
  [("s1", some exPayload), ("s2", some exPayload), ("s3", none)]

/-- Concrete rows for the persist scenario. -/
def exRec1 : TransformedRecord := mkTransformed "s1" none none exSensorRecord "now"

/-- A second concrete row, the one whose individual insert fails. -/
def exRec2 : TransformedRecord := mkTransformed "s2" none none exSensorRecord "now"

/-- A destination that rejects multi-row batches and the row of sensor
`"s2"`, and accepts every other single row. -/
def exDB : InsertOracle := fun l =>
  match l with
  | [r] => if r.sensor_company_id = "s2" then .error () else .ok [r]
  | _ => .error ()

/-! Persister lemmas. -/

theorem chunksAux_nil (n fuel : Nat) : chunksAux n fuel ([] : List α) = [] := by
  cases fuel <;> rfl

/-- A nonempty record list no longer than one batch forms a single batch. -/
theorem chunksOf_single (l : List α) (n : Nat) (hne : l ≠ []) (hlen : l.length ≤ n) :
    chunksOf n l = [l] := by
  cases l with
  | nil => exact absurd rfl hne
  | cons a rest =>
    show chunksAux n (a :: rest).length (a :: rest) = [a :: rest]
    rw [List.length_cons]
    unfold chunksAux
    rw [List.take_of_length_le hlen, List.drop_eq_nil_of_le hlen, chunksAux_nil]

/-- Claim C6: `save_to_supabase` returns true on empty input (no-op), true
on every input within the modelled behaviour (every insert exception is
caught inside the loop), and in the partial-failure scenario — the batch
insert raises, each row is retried individually, and exactly one row fails
— the reported saved count is the batch size minus one. -/
theorem persist_row_fallback :
    (∀ db : InsertOracle, save_to_supabase db [] = (true, 0)) ∧
    (∀ (db : InsertOracle) (records : List TransformedRecord),
      (save_to_supabase db records).1 = true) ∧
    (∀ (db : InsertOracle) (pre post : List TransformedRecord) (bad : TransformedRecord),
      (pre ++ bad :: post).length ≤ SUPABASE_BATCH_SIZE →
      db (pre ++ bad :: post) = .error () →
      (∀ r ∈ pre ++ post, db [r] = .ok [r]) →
      (db [bad] = .error () ∨ db [bad] = .ok []) →
      save_to_supabase db (pre ++ bad :: post) =
        (true, (pre ++ bad :: post).length - 1)) := by
  refine ⟨fun db => rfl, ?_, ?_⟩
  · intro db records
    unfold save_to_supabase
    split <;> rfl
  · intro db pre post bad hlen herr hgood hbad
    have hne : pre ++ bad :: post ≠ [] := by simp
    unfold save_to_supabase
    rw [if_neg (by simp [List.isEmpty_iff])]
    rw [chunksOf_single _ _ hne hlen]
    have hcount : insert_batch_with_fallback db (pre ++ bad :: post) =
        pre.length + post.length := by
      unfold insert_batch_with_fallback
      rw [herr]
      rw [List.filter_append, List.filter_cons]
      have hqbad : (match db [bad] with
          | .ok l => !l.isEmpty
          | .error _ => false) = false := by
        rcases hbad with h | h
        · rw [h]
        · rw [h]
          rfl
      rw [hqbad]
      rw [List.filter_eq_self.mpr (fun r hr => by
        rw [hgood r (List.mem_append_left _ hr)]; rfl)]
      rw [List.filter_eq_self.mpr (fun r hr => by
        rw [hgood r (List.mem_append_right _ hr)]; rfl)]
      simp
    rw [List.map_cons, List.map_nil, List.sum_cons, List.sum_nil, hcount]
    have hL : (pre ++ bad :: post).length = pre.length + (post.length + 1) := by
      simp [List.length_append]
    rw [hL]
    rfl

/-! Dictionary lemmas. -/

theorem dictGet_nil (k : String) : dictGet ([] : List (String × α)) k = none := rfl

theorem dictGet_cons (k : String) (p : String × α) (d : List (String × α)) :
    dictGet (p :: d) k = if k = p.1 then some p.2 else dictGet d k := by
  cases p with
  | mk k' v =>
    simp only [dictGet, List.lookup]
    by_cases h : k = k'
    · simp [h]
    · simp [h, beq_eq_false_iff_ne.mpr h]

theorem dictGet_dictInsert_self (d : List (String × α)) (k : String) (v : α) :
    dictGet (dictInsert d k v) k = some v := by
  induction d with
  | nil => simp [dictInsert, dictGet_cons]
  | cons p rest ih =>
    by_cases h : p.1 = k
    · simp [dictInsert, h, dictGet_cons]
    · simp only [dictInsert, if_neg h]
      rw [dictGet_cons, if_neg (show ¬ k = p.1 from fun hh => h hh.symm)]
      exact ih

theorem mem_keys_dictInsert (d : List (String × α)) (k k' : String) (v : α) :
    k' ∈ (dictInsert d k v).map Prod.fst ↔ k' = k ∨ k' ∈ d.map Prod.fst := by
  induction d with
  | nil => simp [dictInsert]
  | cons p rest ih =>
    by_cases h : p.1 = k
    · simp only [dictInsert, if_pos h, List.map_cons, List.mem_cons, ih]
      constructor
      · rintro (rfl | hm)
        · exact Or.inl rfl
        · exact Or.inr (Or.inr hm)
      · rintro (rfl | rfl | hm)
        · exact Or.inl rfl
        · exact Or.inl h
        · exact Or.inr hm
    · simp only [dictInsert, if_neg h, List.map_cons, List.mem_cons, ih]
      tauto

theorem length_dictInsert (d : List (String × α)) (k : String) (v : α) :
    (dictInsert d k v).length =
      if k ∈ d.map Prod.fst then d.length else d.length + 1 := by
  induction d with
  | nil => simp [dictInsert]
  | cons p rest ih =>
    by_cases h : p.1 = k
    · simp [dictInsert, h]
    · simp only [dictInsert, if_neg h, List.length_cons, ih, List.map_cons, List.mem_cons]
      by_cases hm : k ∈ rest.map Prod.fst
      · simp [hm]
      · rw [if_neg hm, if_neg (show ¬ (k = p.1 ∨ k ∈ rest.map Prod.fst) from by
          rintro (hh | hh)
          · exact h hh.symm
          · exact hm hh)]

/-! Path lemmas for `get_rainfall_data`. -/

/-- A fresh cache hit returns the cached payload and leaves the state
untouched. -/
theorem get_rainfall_data_cache_hit
    (st : ApiState) (net : String → String → String → Option Payload) (now : Nat)
    (tok s a b : String) (e : CacheEntry)
    (htok : st.access_token = some tok)
    (hhit : dictGet st.data_cache (cacheKey s a b) = some e)
    (hfresh : now - e.timestamp < CACHE_DURATION_SEC) :
    get_rainfall_data st net now s a b true = (.ok e.data, st) := by
  unfold get_rainfall_data
  rw [htok]
  simp [hhit, hfresh]

/-- Without a fresh cache hit, a network response of status `"OK"` is
returned and stored (evicting the oldest entry at capacity). -/
theorem get_rainfall_data_network_ok
    (st : ApiState) (net : String → String → String → Option Payload) (now : Nat)
    (tok s a b : String) (p : Payload)
    (htok : st.access_token = some tok)
    (hstale : ∀ e, dictGet st.data_cache (cacheKey s a b) = some e →
        CACHE_DURATION_SEC ≤ now - e.timestamp)
    (hnet : net s a b = some p) (hok : p.status = "OK") :
    get_rainfall_data st net now s a b true =
      (.ok p,
       { st with network_calls := st.network_calls + 1,
                 data_cache := dictInsert
                   (if MAX_CACHE_ENTRIES ≤ st.data_cache.length then evictOldest st.data_cache
                    else st.data_cache)
                   (cacheKey s a b) ⟨p, now⟩ }) := by
  unfold get_rainfall_data
  rw [htok]
  cases hc : dictGet st.data_cache (cacheKey s a b) with
  | none => simp [hc, hnet, hok]
  | some e => simp [hc, Nat.not_lt.mpr (hstale e hc), hnet, hok]

/-- The function `get_rainfall_data` never touches the dedup ledger. -/
theorem get_rainfall_data_preserves_ledger
    (st : ApiState) (net : String → String → String → Option Payload) (now : Nat)
    (s a b : String) (uc : Bool) :
    (get_rainfall_data st net now s a b uc).2.last_processed_cache =
      st.last_processed_cache := by
  unfold get_rainfall_data
  dsimp only
  repeat' split <;> try rfl

/-- A ledger entry younger than the suppression interval short-circuits the
fetch: null payload, success flag, state untouched. -/
theorem fetch_single_skip
    (st : ApiState) (net : String → String → String → Option Payload) (now : Nat)
    (info : SensorInfo) (a b : String) (t : Nat)
    (hl : dictGet st.last_processed_cache (cacheKey info.sensor_company_id a b) = some t)
    (hlt : now - t < DUPLICATE_SKIP_SEC) :
    fetch_single_sensor_data st net now info a b =
      ((info.sensor_company_id, none, display_name info, true), st) := by
  unfold fetch_single_sensor_data
  simp [hl, hlt]

/-! Eviction lemmas. -/

theorem oldestFrom_snd_le (l : List (String × CacheEntry)) :
    ∀ k t, (oldestFrom k t l).2 ≤ t := by
  induction l with
  | nil => intro k t; exact le_refl t
  | cons p rest ih =>
    intro k t
    cases p with
    | mk k' e =>
      unfold oldestFrom
      by_cases h : e.timestamp < t
      · rw [if_pos h]
        exact le_trans (ih k' e.timestamp) (le_of_lt h)
      · rw [if_neg h]
        exact ih k t

theorem oldestFrom_le_mem (l : List (String × CacheEntry)) :
    ∀ k t, ∀ p ∈ l, (oldestFrom k t l).2 ≤ p.2.timestamp := by
  induction l with
  | nil => intro k t p hp; cases hp
  | cons q rest ih =>
    intro k t p hp
    cases q with
    | mk k' e =>
      unfold oldestFrom
      rcases List.mem_cons.mp hp with rfl | hmem
      · by_cases h : e.timestamp < t
        · rw [if_pos h]
          exact oldestFrom_snd_le rest k' e.timestamp
        · rw [if_neg h]
          exact le_trans (oldestFrom_snd_le rest k t) (Nat.not_lt.mp h)
      · by_cases h : e.timestamp < t
        · rw [if_pos h]; exact ih k' e.timestamp p hmem
        · rw [if_neg h]; exact ih k t p hmem

theorem oldestFrom_mem (l : List (String × CacheEntry)) :
    ∀ k t, oldestFrom k t l = (k, t) ∨
      ∃ e, ((oldestFrom k t l).1, e) ∈ l ∧ e.timestamp = (oldestFrom k t l).2 := by
  induction l with
  | nil => intro k t; exact Or.inl rfl
  | cons q rest ih =>
    intro k t
    cases q with
    | mk k' e =>
      unfold oldestFrom
      by_cases h : e.timestamp < t
      · rw [if_pos h]
        rcases ih k' e.timestamp with heq | ⟨e', hmem, hts⟩
        · exact Or.inr ⟨e, by rw [heq]; exact ⟨List.mem_cons_self _ _, rfl⟩⟩
        · exact Or.inr ⟨e', List.mem_cons_of_mem _ hmem, hts⟩
      · rw [if_neg h]
        rcases ih k t with heq | ⟨e', hmem, hts⟩
        · exact Or.inl heq
        · exact Or.inr ⟨e', List.mem_cons_of_mem _ hmem, hts⟩

theorem length_filter_lt_of_mem_not (l : List α) (p : α → Bool) (x : α)
    (hx : x ∈ l) (hp : p x = false) : (l.filter p).length < l.length := by
  induction l with
  | nil => cases hx
  | cons a rest ih =>
    rcases List.mem_cons.mp hx with rfl | hmem
    · rw [List.filter_cons, hp]
      exact Nat.lt_succ_of_le (List.length_filter_le p rest)
    · rw [List.filter_cons]
      cases hpa : p a
      · exact Nat.lt_succ_of_lt (ih hmem)
      · simpa using Nat.succ_lt_succ (ih hmem)

theorem evictOldest_length_lt (d : List (String × CacheEntry)) (hne : d ≠ []) :
    (evictOldest d).length < d.length := by
  cases d with
  | nil => exact absurd rfl hne
  | cons q rest =>
    cases q with
    | mk k0 e0 =>
      unfold evictOldest oldestKey
      dsimp only
      rcases oldestFrom_mem rest k0 e0.timestamp with heq | ⟨e, hmem, _⟩
      · rw [heq]
        apply length_filter_lt_of_mem_not _ _ (k0, e0) (List.mem_cons_self _ _)
        simp [heq]
      · apply length_filter_lt_of_mem_not _ _ ((oldestFrom k0 e0.timestamp rest).1, e)
          (List.mem_cons_of_mem _ hmem)
        simp

theorem length_dictInsert_le (d : List (String × α)) (k : String) (v : α) :
    (dictInsert d k v).length ≤ d.length + 1 := by
  rw [length_dictInsert]
  split <;> omega

/-- Every branch of `get_rainfall_data` either keeps the reading cache or
replaces it by one insertion into the (possibly evicted-at-capacity) old
cache. -/
theorem get_rainfall_data_data_cache_cases
    (st : ApiState) (net : String → String → String → Option Payload) (now : Nat)
    (s a b : String) (uc : Bool) :
    ((get_rainfall_data st net now s a b uc).2).data_cache = st.data_cache ∨
    ∃ k e, ((get_rainfall_data st net now s a b uc).2).data_cache =
      dictInsert (if MAX_CACHE_ENTRIES ≤ st.data_cache.length then evictOldest st.data_cache
                  else st.data_cache) k e := by
  unfold get_rainfall_data
  dsimp only
  repeat' split
  all_goals first | exact Or.inl rfl | exact Or.inr ⟨_, _, rfl⟩

/-- Claim C3: the reading cache never exceeds `MAX_CACHE_ENTRIES` entries
after any call, and when a store happens at capacity the entry evicted is
one carrying the globally smallest stored timestamp, regardless of its key
(first such key in insertion order). -/
theorem cache_bounded_and_evicts_oldest :
    (∀ (st : ApiState) (net : String → String → String → Option Payload)
       (now : Nat) (s a b : String) (uc : Bool),
      st.data_cache.length ≤ MAX_CACHE_ENTRIES →
      ((get_rainfall_data st net now s a b uc).2).data_cache.length ≤ MAX_CACHE_ENTRIES) ∧
    (∀ d : List (String × CacheEntry), d ≠ [] →
      ∃ k t, oldestKey d = some (k, t) ∧
        (∃ e, (k, e) ∈ d ∧ e.timestamp = t) ∧
        (∀ p ∈ d, t ≤ p.2.timestamp) ∧
        evictOldest d = dictErase d k) ∧
    (∀ (st : ApiState) (net : String → String → String → Option Payload)
       (now : Nat) (tok s a b : String) (p : Payload),
      st.access_token = some tok →
      (∀ e, dictGet st.data_cache (cacheKey s a b) = some e →
          CACHE_DURATION_SEC ≤ now - e.timestamp) →
      net s a b = some p → p.status = "OK" →
      MAX_CACHE_ENTRIES ≤ st.data_cache.length →
      ((get_rainfall_data st net now s a b true).2).data_cache =
        dictInsert (evictOldest st.data_cache) (cacheKey s a b) ⟨p, now⟩) := by
  refine ⟨?_, ?_, ?_⟩
  · intro st net now s a b uc hle
    rcases get_rainfall_data_data_cache_cases st net now s a b uc with h | ⟨k, e, h⟩
    · rw [h]; exact hle
    · rw [h]
      by_cases hcap : MAX_CACHE_ENTRIES ≤ st.data_cache.length
      · rw [if_pos hcap]
        have hne : st.data_cache ≠ [] := by
          intro hnil
          rw [hnil] at hcap
          simp [MAX_CACHE_ENTRIES] at hcap
        have h1 := evictOldest_length_lt st.data_cache hne
        have h2 := length_dictInsert_le (evictOldest st.data_cache) k e
        omega
      · rw [if_neg hcap]
        have h2 := length_dictInsert_le st.data_cache k e
        omega
  · intro d hne
    cases d with
    | nil => exact absurd rfl hne
    | cons q rest =>
      cases q with
      | mk k0 e0 =>
        refine ⟨(oldestFrom k0 e0.timestamp rest).1, (oldestFrom k0 e0.timestamp rest).2,
          by simp [oldestKey], ?_, ?_, ?_⟩
        · rcases oldestFrom_mem rest k0 e0.timestamp with heq | ⟨e, hmem, hts⟩
          · exact ⟨e0, by rw [heq]; exact ⟨List.mem_cons_self _ _, rfl⟩⟩
          · exact ⟨e, List.mem_cons_of_mem _ hmem, hts⟩
        · intro p hp
          rcases List.mem_cons.mp hp with rfl | hmem
          · exact oldestFrom_snd_le rest k0 e0.timestamp
          · exact oldestFrom_le_mem rest k0 e0.timestamp p hmem
        · unfold evictOldest oldestKey
          rfl
  · intro st net now tok s a b p htok hstale hnet hok hcap
    rw [get_rainfall_data_network_ok st net now tok s a b p htok hstale hnet hok]
    simp [if_pos hcap]

/-- Claim C2: a second `get_rainfall_data` call with the same
`(sensor, window)` triple, cache enabled, within the 300-second TTL of a
first call that fetched over the network, performs no network request and
returns exactly the payload the first call stored in the reading cache. -/
theorem cache_hit_property
    (st : ApiState) (net : String → String → String → Option Payload)
    (t₁ t₂ : Nat) (tok s a b : String) (p : Payload)
    (htok : st.access_token = some tok)
    (hmiss : dictGet st.data_cache (cacheKey s a b) = none)
    (hnet : net s a b = some p) (hok : p.status = "OK")
    (hfresh : t₂ - t₁ < CACHE_DURATION_SEC) :
    (get_rainfall_data st net t₁ s a b true).1 = .ok p ∧
    (get_rainfall_data st net t₁ s a b true).2.network_calls = st.network_calls + 1 ∧
    dictGet (get_rainfall_data st net t₁ s a b true).2.data_cache (cacheKey s a b) =
      some ⟨p, t₁⟩ ∧
    get_rainfall_data (get_rainfall_data st net t₁ s a b true).2 net t₂ s a b true =
      (.ok p, (get_rainfall_data st net t₁ s a b true).2) := by
  have h1 := get_rainfall_data_network_ok st net t₁ tok s a b p htok
    (fun e he => absurd (hmiss ▸ he) (by simp)) hnet hok
  refine ⟨by rw [h1], by rw [h1], ?_, ?_⟩
  · rw [h1]
    exact dictGet_dictInsert_self _ _ _
  · have h2 := get_rainfall_data_cache_hit (get_rainfall_data st net t₁ s a b true).2
      net t₂ tok s a b ⟨p, t₁⟩ (by rw [h1]; exact htok)
      (by rw [h1]; exact dictGet_dictInsert_self _ _ _) hfresh
    exact h2

/-- Claim C1: after a first orchestrator-level fetch for a
`(sensor, window)` pair succeeds over the network and stamps the dedup
ledger, a second request for the same pair within the 60-second suppression
interval returns a null payload marked successful and leaves the state
(network-call counter included) untouched. -/
theorem dedup_property
    (st : ApiState) (net : String → String → String → Option Payload)
    (t₁ t₂ : Nat) (tok a b : String) (info : SensorInfo) (p : Payload)
    (htok : st.access_token = some tok)
    (hledger : dictGet st.last_processed_cache (cacheKey info.sensor_company_id a b) = none)
    (hmiss : dictGet st.data_cache (cacheKey info.sensor_company_id a b) = none)
    (hnet : net info.sensor_company_id a b = some p)
    (hok : p.status = "OK")
    (hwithin : t₂ - t₁ < DUPLICATE_SKIP_SEC) :
    (fetch_single_sensor_data st net t₁ info a b).1 =
      (info.sensor_company_id, some p, display_name info, true) ∧
    fetch_single_sensor_data (fetch_single_sensor_data st net t₁ info a b).2 net t₂ info a b =
      ((info.sensor_company_id, none, display_name info, true),
       (fetch_single_sensor_data st net t₁ info a b).2) ∧
    (fetch_single_sensor_data (fetch_single_sensor_data st net t₁ info a b).2 net t₂ info a b).2.network_calls =
      (fetch_single_sensor_data st net t₁ info a b).2.network_calls := by
  have hget := get_rainfall_data_network_ok st net t₁ tok info.sensor_company_id a b p htok
    (fun e he => absurd (hmiss ▸ he) (by simp)) hnet hok
  have h1 : fetch_single_sensor_data st net t₁ info a b =
      ((info.sensor_company_id, some p, display_name info, true),
       { (get_rainfall_data st net t₁ info.sensor_company_id a b true).2 with
         last_processed_cache := dictInsert
           (get_rainfall_data st net t₁ info.sensor_company_id a b true).2.last_processed_cache
           (cacheKey info.sensor_company_id a b) t₁ }) := by
    unfold fetch_single_sensor_data
    dsimp only
    rw [hledger]
    simp [hget]
  have hstamp : dictGet (fetch_single_sensor_data st net t₁ info a b).2.last_processed_cache
      (cacheKey info.sensor_company_id a b) = some t₁ := by
    rw [h1]
    exact dictGet_dictInsert_self _ _ _
  have h2 := fetch_single_skip (fetch_single_sensor_data st net t₁ info a b).2 net t₂ info a b
    t₁ hstamp hwithin
  exact ⟨by rw [h1], h2, by rw [h2]⟩

/-- Claim C7: when the call consults the network (no fresh cache hit) and
the remote reports a status other than `"OK"`, `get_rainfall_data` raises
and stores nothing: the whole state except the network-call counter, and
the reading cache in particular, is unchanged. -/
theorem non_ok_status_raises_and_does_not_cache
    (st : ApiState) (net : String → String → String → Option Payload) (now : Nat)
    (tok s a b : String) (uc : Bool) (p : Payload)
    (htok : st.access_token = some tok)
    (hstale : ∀ e, dictGet st.data_cache (cacheKey s a b) = some e →
        CACHE_DURATION_SEC ≤ now - e.timestamp)
    (hnet : net s a b = some p) (hbad : p.status ≠ "OK") :
    get_rainfall_data st net now s a b uc =
      (.error "fetch failed", { st with network_calls := st.network_calls + 1 }) := by
  unfold get_rainfall_data
  rw [htok]
  cases uc with
  | false => simp [hnet, hbad]
  | true =>
    cases hc : dictGet st.data_cache (cacheKey s a b) with
    | none => simp [hc, hnet, hbad]
    | some e => simp [hc, Nat.not_lt.mpr (hstale e hc), hnet, hbad]

/-! Result-collection lemmas for the orchestrator. -/

/-- The first component of a single-sensor fetch result is always the
sensor id. -/
theorem fetch_single_fst
    (st : ApiState) (net : String → String → String → Option Payload) (now : Nat)
    (info : SensorInfo) (a b : String) :
    (fetch_single_sensor_data st net now info a b).1.1 = info.sensor_company_id := by
  unfold fetch_single_sensor_data
  dsimp only
  repeat' split
  all_goals rfl

/-- One collection step stores under the sensor id. -/
theorem fetch_all_step_fst
    (net : String → String → String → Option Payload) (now : Nat) (a b : String)
    (acc : List (String × Option Payload) × ApiState) (i : SensorInfo) :
    (fetch_all_step net now a b acc i).1 =
      dictInsert acc.1 i.sensor_company_id
        (fetch_single_sensor_data acc.2 net now i a b).1.2.1 := by
  unfold fetch_all_step
  dsimp only
  rw [fetch_single_fst]

theorem fetch_all_foldl_keys_mono
    (net : String → String → String → Option Payload) (now : Nat) (a b : String) :
    ∀ (sensors : List SensorInfo) (acc : List (String × Option Payload) × ApiState)
      (k : String), k ∈ acc.1.map Prod.fst →
      k ∈ (sensors.foldl (fetch_all_step net now a b) acc).1.map Prod.fst := by
  intro sensors
  induction sensors with
  | nil => intro acc k hk; exact hk
  | cons i rest ih =>
    intro acc k hk
    rw [List.foldl_cons]
    refine ih _ k ?_
    rw [fetch_all_step_fst]
    exact (mem_keys_dictInsert _ _ _ _).mpr (Or.inr hk)

theorem fetch_all_foldl_mem
    (net : String → String → String → Option Payload) (now : Nat) (a b : String) :
    ∀ (sensors : List SensorInfo) (acc : List (String × Option Payload) × ApiState),
      ∀ s ∈ sensors, s.sensor_company_id ∈
        (sensors.foldl (fetch_all_step net now a b) acc).1.map Prod.fst := by
  intro sensors
  induction sensors with
  | nil => intro acc s hs; cases hs
  | cons i rest ih =>
    intro acc s hs
    rw [List.foldl_cons]
    rcases List.mem_cons.mp hs with rfl | hmem
    · refine fetch_all_foldl_keys_mono net now a b rest _ _ ?_
      rw [fetch_all_step_fst]
      exact (mem_keys_dictInsert _ _ _ _).mpr (Or.inl rfl)
    · exact ih _ s hmem

theorem fetch_all_foldl_length
    (net : String → String → String → Option Payload) (now : Nat) (a b : String) :
    ∀ (sensors : List SensorInfo) (acc : List (String × Option Payload) × ApiState),
      (sensors.map (fun s => s.sensor_company_id)).Nodup →
      (∀ s ∈ sensors, s.sensor_company_id ∉ acc.1.map Prod.fst) →
      (sensors.foldl (fetch_all_step net now a b) acc).1.length =
        acc.1.length + sensors.length := by
  intro sensors
  induction sensors with
  | nil => intro acc _ _; rfl
  | cons i rest ih =>
    intro acc hnd hfresh
    rw [List.map_cons, List.nodup_cons] at hnd
    rw [List.foldl_cons]
    have hlen : ((fetch_all_step net now a b acc i).1).length = acc.1.length + 1 := by
      rw [fetch_all_step_fst, length_dictInsert,
        if_neg (hfresh i (List.mem_cons_self _ _))]
    have hrest : ∀ s ∈ rest, s.sensor_company_id ∉ (fetch_all_step net now a b acc i).1.map Prod.fst := by
      intro s hs hkey
      rw [fetch_all_step_fst] at hkey
      rcases (mem_keys_dictInsert _ _ _ _).mp hkey with heq | hmem
      · exact hnd.1 (heq ▸ List.mem_map_of_mem (fun s => s.sensor_company_id) hs)
      · exact hfresh s (List.mem_cons_of_mem _ hs) hmem
    rw [ih _ hnd.2 hrest, hlen, List.length_cons]
    omega

/-- Claim C4, counterexample: with the duplicated input
`[exInfo, exInfo]` the orchestrator result map has 1 entry, not 2. -/
theorem batch_cardinality_counterexample :
    (fetch_all_rainfall_data_parallel ApiState.init exNetNone 100 [exInfo, exInfo] "a" "b").1.length = 1 ∧
    ([exInfo, exInfo] : List SensorInfo).length = 2 := by
  constructor
  · rfl
  · rfl

/-! Transformer lemmas. -/

theorem dictGet_eq_none_iff (d : List (String × α)) (k : String) :
    dictGet d k = none ↔ k ∉ d.map Prod.fst := by
  induction d with
  | nil => simp [dictGet_nil]
  | cons p rest ih =>
    rw [dictGet_cons]
    by_cases h : k = p.1
    · simp [h]
    · simp [h, ih]

/-- Keys of the descriptor map built by the transformer come from the
inventory. -/
theorem device_map_keys (si : List SensorInfo) :
    ∀ (acc : List (String × SensorInfo)) (k : String),
      k ∈ (si.foldl (fun m s => dictInsert m s.sensor_company_id s) acc).map Prod.fst →
      k ∈ acc.map Prod.fst ∨ ∃ s ∈ si, s.sensor_company_id = k := by
  induction si with
  | nil => intro acc k hk; exact Or.inl hk
  | cons i rest ih =>
    intro acc k hk
    rw [List.foldl_cons] at hk
    rcases ih _ k hk with hacc | ⟨s, hs, hid⟩
    · rcases (mem_keys_dictInsert _ _ _ _).mp hacc with heq | hmem
      · exact Or.inr ⟨i, List.mem_cons_self _ _, heq.symm⟩
      · exact Or.inl hmem
    · exact Or.inr ⟨s, List.mem_cons_of_mem _ hs, hid⟩

/-- Length of the records emitted for one batch entry: one per raw reading
when the payload is present with status `"OK"`, zero otherwise. -/
theorem entryRecords_length (m : List (String × SensorInfo)) (t : String)
    (p : String × Option Payload) :
    (entryRecords m t p).length =
      match p.2 with
      | some pay =>
          if pay.status = "OK" then
            ((pay.data.getD []).map (fun r => (r.sensor_records.getD []).length)).sum
          else 0
      | none => 0 := by
  cases hp : p.2 with
  | none => simp [entryRecords, hp]
  | some pay =>
    by_cases h : pay.status = "OK"
    · unfold entryRecords
      rw [hp]
      dsimp only
      rw [if_pos h, if_pos h, List.length_flatMap]
      congr 1
      apply List.map_congr_left
      intro r _
      simp [Function.comp]
    · simp [entryRecords, hp, h]

/-- Claim C5: the transformer emits exactly one record per raw reading of
each batch entry whose payload is non-null with success status (entries
with null payload or non-success status contribute zero records), and a
sensor with no matching inventory descriptor yields records whose device
fields are all null instead of failing. -/
theorem transform_record_count
    (rainfall_data : List (String × Option Payload)) (sensors : List SensorInfo)
    (current_time : String) :
    (transform_rainfall_data rainfall_data sensors current_time).length =
      expectedRecordCount rainfall_data ∧
    (∀ r ∈ transform_rainfall_data rainfall_data sensors current_time,
      (∀ s ∈ sensors, s.sensor_company_id ≠ r.sensor_company_id) →
      r.device_id = none ∧ r.device_name = none ∧
      r.gps_location_lat = none ∧ r.gps_location_lng = none) := by
  constructor
  · unfold transform_rainfall_data expectedRecordCount
    rw [List.length_flatMap]
    congr 1
    apply List.map_congr_left
    intro p _
    exact entryRecords_length _ _ p
  · intro r hr hnone
    unfold transform_rainfall_data at hr
    rcases List.mem_flatMap.mp hr with ⟨p, hp, hrp⟩
    unfold entryRecords at hrp
    rcases hpay : p.2 with _ | pay
    · rw [hpay] at hrp; simp at hrp
    · rw [hpay] at hrp
      dsimp only at hrp
      by_cases hok : pay.status = "OK"
      · rw [if_pos hok] at hrp
        rcases List.mem_flatMap.mp hrp with ⟨record, _, hrrec⟩
        rcases List.mem_map.mp hrrec with ⟨sr, _, hmk⟩
        have hid : r.sensor_company_id = p.1 := by rw [← hmk]; rfl
        have hdev : dictGet (sensors.foldl
            (fun m s => dictInsert m s.sensor_company_id s) []) p.1 = none := by
          rw [dictGet_eq_none_iff]
          intro hk
          rcases device_map_keys sensors [] p.1 hk with habs | ⟨s, hs, hsid⟩
          · simp at habs
          · exact hnone s hs (by rw [hsid, ← hid])
        rw [← hmk]
        unfold mkTransformed
        rw [hdev]
        exact ⟨rfl, rfl, rfl, rfl⟩
      · rw [if_neg hok] at hrp; cases hrp

/-- Claim C4 (amended): every input sensor id appears as a key of the
orchestrator result map (skipped and failed sensors included, with null
payloads), and when the input sensor ids are pairwise distinct the map has
exactly one entry per input sensor; duplicated ids collapse onto one key,
so on arbitrary inputs the count is the number of distinct ids. -/
theorem batch_result_cardinality_amended
    (st : ApiState) (net : String → String → String → Option Payload) (now : Nat)
    (sensors : List SensorInfo) (a b : String) :
    (∀ s ∈ sensors, s.sensor_company_id ∈
      (fetch_all_rainfall_data_parallel st net now sensors a b).1.map Prod.fst) ∧
    ((sensors.map (fun s => s.sensor_company_id)).Nodup →
      (fetch_all_rainfall_data_parallel st net now sensors a b).1.length = sensors.length) := by
  constructor
  · intro s hs
    exact fetch_all_foldl_mem net now a b sensors ([], st) s hs
  · intro hnd
    have := fetch_all_foldl_length net now a b sensors ([], st) hnd
      (by intro s _ hk; simp at hk)
    simpa using this

/-- Claim C8, counterexample: the source checks the inventory cache before
the token, so with no session token and a fresh inventory cache the call
returns the cached inventory successfully instead of failing with a
not-authenticated error. -/
theorem no_token_fresh_cache_counterexample :
    exStCacheNoTok.access_token = none ∧
    get_all_rainfall_sensors_with_device_info exStCacheNoTok none 150 =
      (.ok [exInfo], exStCacheNoTok) :=
  ⟨rfl, rfl⟩

/-- Claim C8 (amended): with no session token, `listSensorsWithDeviceInfo`
fails with the not-authenticated error and changes nothing — provided the
inventory cache is absent or stale; a fresh inventory cache short-circuits
the authentication check and is served as-is. -/
theorem no_token_fails_amended
    (st : ApiState) (netd : Option DevicesPayload) (now : Nat)
    (htok : st.access_token = none)
    (hnofresh : ∀ sc ts, st.sensors_cache = some sc → st.cache_timestamp = some ts →
        CACHE_DURATION_SEC ≤ now - ts) :
    get_all_rainfall_sensors_with_device_info st netd now =
      (.error "login required", st) := by
  have huncached : get_all_sensors_uncached st netd now = (.error "login required", st) := by
    unfold get_all_sensors_uncached
    rw [htok]
  unfold get_all_rainfall_sensors_with_device_info
  cases hsc : st.sensors_cache with
  | none => exact huncached
  | some sc =>
    cases hts : st.cache_timestamp with
    | none => exact huncached
    | some ts =>
      dsimp only
      rw [if_neg (Nat.not_lt.mpr (hnofresh sc ts hsc hts))]
      exact huncached

/-- Claim C9: the transformer is deterministic in its arguments, and since
the source only reads its inputs (it allocates fresh dicts and lists for
everything it returns) it is embedded as a pure function, on which absence
of input mutation is structural: transforming equal batch and inventory
values twice yields identical record lists. -/
theorem transform_idempotent
    (rd₁ rd₂ : List (String × Option Payload)) (si₁ si₂ : List SensorInfo)
    (t : String) (h1 : rd₁ = rd₂) (h2 : si₁ = si₂) :
    transform_rainfall_data rd₁ si₁ t = transform_rainfall_data rd₂ si₂ t := by
  rw [h1, h2]

/-- Claim C10: when the dedup check does not fire and the underlying fetch
raises, `fetch_single_sensor_data` converts the exception into the 4-tuple
`(sensor_id, none, display_name, false)` (rather than propagating it — the
embedding is total by construction, mirroring the catch-all `except`), and
the dedup ledger is left exactly as it was, so the failure can never make a
later request for the same key be skipped. -/
theorem fetch_single_failure_safety
    (st : ApiState) (net : String → String → String → Option Payload) (now : Nat)
    (info : SensorInfo) (a b : String) (msg : String)
    (hnoskip : ∀ t, dictGet st.last_processed_cache (cacheKey info.sensor_company_id a b) = some t →
        DUPLICATE_SKIP_SEC ≤ now - t)
    (hfail : (get_rainfall_data st net now info.sensor_company_id a b true).1 = .error msg) :
    fetch_single_sensor_data st net now info a b =
      ((info.sensor_company_id, none, display_name info, false),
       (get_rainfall_data st net now info.sensor_company_id a b true).2) ∧
    (fetch_single_sensor_data st net now info a b).2.last_processed_cache =
      st.last_processed_cache := by
  have hmain : fetch_single_sensor_data st net now info a b =
      ((info.sensor_company_id, none, display_name info, false),
       (get_rainfall_data st net now info.sensor_company_id a b true).2) := by
    unfold fetch_single_sensor_data
    have hskip : (match dictGet st.last_processed_cache (cacheKey info.sensor_company_id a b) with
        | some last_time => decide (now - last_time < DUPLICATE_SKIP_SEC)
        | none => false) = false := by
      cases hl : dictGet st.last_processed_cache (cacheKey info.sensor_company_id a b) with
      | none => rfl
      | some t => simpa using Nat.not_lt.mpr (hnoskip t hl)
    dsimp only
    rw [hskip]
    simp only [Bool.false_eq_true, if_false]
    rcases hg : get_rainfall_data st net now info.sensor_company_id a b true with ⟨r, st'⟩
    rw [hg] at hfail
    cases r with
    | ok d => exact absurd hfail (by simp)
    | error m => rfl
  exact ⟨hmain, by rw [hmain]; exact get_rainfall_data_preserves_ledger st net now _ a b true⟩

/-! Witnesses: each applies its claim theorem at a concrete input,
discharging every hypothesis there. -/

/-- Witness for `dedup_property` at a concrete input. -/
theorem dedup_property_witness :
    fetch_single_sensor_data (fetch_single_sensor_data exStTok exNetOK 100 exInfo "a" "b").2
        exNetOK 130 exInfo "a" "b" =
      ((exInfo.sensor_company_id, none, display_name exInfo, true),
       (fetch_single_sensor_data exStTok exNetOK 100 exInfo "a" "b").2) :=
  (dedup_property exStTok exNetOK 100 130 "tok" "a" "b" exInfo exPayload rfl rfl rfl rfl rfl
    (by decide)).2.1

/-- Witness for `cache_hit_property` at a concrete input. -/
theorem cache_hit_property_witness :
    get_rainfall_data (get_rainfall_data exStTok exNetOK 100 "s1" "a" "b" true).2
        exNetOK 130 "s1" "a" "b" true =
      (.ok exPayload, (get_rainfall_data exStTok exNetOK 100 "s1" "a" "b" true).2) :=
  (cache_hit_property exStTok exNetOK 100 130 "tok" "s1" "a" "b" exPayload rfl rfl rfl rfl
    (by decide)).2.2.2

/-- Witness for `cache_bounded_and_evicts_oldest` at a concrete input. -/
theorem cache_bounded_witness :
    ((get_rainfall_data exStTok exNetOK 100 "s1" "a" "b" true).2).data_cache.length ≤
      MAX_CACHE_ENTRIES :=
  cache_bounded_and_evicts_oldest.1 exStTok exNetOK 100 "s1" "a" "b" true (by decide)

/-- Witness for `batch_result_cardinality_amended` at a concrete input. -/
theorem batch_cardinality_witness :
    (fetch_all_rainfall_data_parallel ApiState.init exNetNone 100 [exInfo] "a" "b").1.length =
      ([exInfo] : List SensorInfo).length :=
  (batch_result_cardinality_amended ApiState.init exNetNone 100 [exInfo] "a" "b").2 (by decide)

/-- Witness for `transform_record_count` on the spec scenario: 3 sensors,
2 succeed with one reading each, 1 fails (null payload); 2 records. -/
theorem transform_record_count_witness :
    (transform_rainfall_data exBatch [exInfo] "now").length = 2 := by
  rw [(transform_record_count exBatch [exInfo] "now").1]
  rfl

/-- Witness for `persist_row_fallback`: a 2-row batch whose bulk insert
fails and whose second row fails individually saves 1 row. -/
theorem persist_row_fallback_witness :
    save_to_supabase exDB [exRec1, exRec2] = (true, 1) :=
  persist_row_fallback.2.2 exDB [exRec1] [] exRec2 (by decide) rfl
    (fun r hr => by simp at hr; subst hr; rfl)
    (Or.inl rfl)

/-- Witness for `non_ok_status_raises_and_does_not_cache` at a concrete
input. -/
theorem non_ok_status_witness :
    get_rainfall_data exStTok exNetBad 100 "s1" "a" "b" true =
      (.error "fetch failed", { exStTok with network_calls := exStTok.network_calls + 1 }) :=
  non_ok_status_raises_and_does_not_cache exStTok exNetBad 100 "tok" "s1" "a" "b" true
    exBadPayload rfl (fun e he => nomatch he) rfl (by decide)

/-- Witness for `no_token_fails_amended` at a concrete input. -/
theorem no_token_fails_witness :
    get_all_rainfall_sensors_with_device_info ApiState.init none 100 =
      (.error "login required", ApiState.init) :=
  no_token_fails_amended ApiState.init none 100 rfl (fun _sc _ts h1 _ => nomatch h1)

/-- Witness for `transform_idempotent` at a concrete input. -/
theorem transform_idempotent_witness :
    transform_rainfall_data exBatch [exInfo] "now" =
      transform_rainfall_data exBatch [exInfo] "now" :=
  transform_idempotent exBatch exBatch [exInfo] [exInfo] "now" rfl rfl

/-- Witness for `fetch_single_failure_safety` at a concrete input. -/
theorem fetch_single_failure_witness :
    fetch_single_sensor_data exStTok exNetNone 100 exInfo "a" "b" =
      ((exInfo.sensor_company_id, none, display_name exInfo, false),
       (get_rainfall_data exStTok exNetNone 100 exInfo.sensor_company_id "a" "b" true).2) :=
  (fetch_single_failure_safety exStTok exNetNone 100 exInfo "a" "b" "connection error"
    (fun _t ht => nomatch ht) rfl).1
